import Mathlib

/-!
Verification of the git-keeper submission test-execution engine
(`gkeepserver/submission.py`).

The Python code is shallowly embedded: pure string manipulation (command
builders, the generated `run_action.sh` template, report-file naming) becomes
Lean functions, and the side-effecting orchestrator `Submission.run_tests`
becomes a function from an oracle describing the outcomes of its external
calls (database queries, git commands, filesystem commands, subprocess runs)
to the trace of observable events it performs, together with the exception it
lets escape to its caller, if any.
-/

/-- A student, as used by `submission.py` (username, email, names).
Modelled from the spec: the `Student` class lives in `gkeepcore.student`,
which is not part of the sources; only the four fields used here matter. -/
structure Student where
  username : String
  email_address : String
  last_name : String
  first_name : String
  deriving DecidableEq, Repr

/-- The resolved test-environment type. `gkeepcore.test_env_yaml` is not part
of the sources; modelled from the spec: the descriptor's `type` field resolves
to host, firejail (namespace-isolated) or docker (container), and anything
else is an unrecognized tag, which `run_tests` itself rejects. -/
inductive TestEnvType where
  | host
  | firejail
  | docker
  | unknown (tag : String)
  deriving DecidableEq, Repr

/-- The server configuration fields read by `submission.py`. -/
structure Config where
  tester_user : String
  keeper_group : String
  tests_timeout : Nat
  tests_memory_limit : Nat
  deriving DecidableEq, Repr

/-- The attributes assigned in `Submission.__init__`. -/
structure Submission where
  student : Student
  student_repo_path : String
  commit_hash : String
  tests_path : String
  reports_repo_path : String
  faculty_username : String
  faculty_email : String
  class_name : String
  assignment_name : String
  test_env_path : String
  deriving DecidableEq, Repr

/-- `os.path.join` for the joins performed in `submission.py` (the second
component is always a relative name). -/
def pathJoin (a b : String) : String :=
  if a.data.getLast? = some '/' then a ++ b else a ++ "/" ++ b

/-- Python whitespace test used by `str.split()` with no argument. -/
def isPySpace (c : Char) : Bool :=
  c = ' ' || c = '\t' || c = '\n' || c = '\x0b' || c = '\x0c' || c = '\r'

/-- Python `str.split()`: split on whitespace runs, dropping empty pieces.
Used on `append_args` in `_make_firejail_command`. -/
def pySplit (s : String) : List String :=
  (s.split isPySpace).filter (fun t => t ≠ "")

/-- Decimal digit list of a natural number, most significant first, with a
fuel parameter bounding the recursion depth (any fuel above the digit count
gives the same result; `decDigits` supplies `n + 1`, which always suffices
since `n / 10 < n`). -/
def decDigitsAux : Nat → Nat → List Char
  | 0, _ => []
  | fuel + 1, n =>
      if n < 10 then [Nat.digitChar n]
      else decDigitsAux fuel (n / 10) ++ [Nat.digitChar (n % 10)]

/-- Decimal digit list of a natural number, most significant first: the
embedding of Python's `str()` on the nonnegative integers interpolated by
`format` in `submission.py`. -/
def decDigits (n : Nat) : List Char := decDigitsAux (n + 1) n

/-- Python `str()` of a nonnegative integer. -/
def pyStr (n : Nat) : String := String.mk (decDigits n)

/-- Numeric value of a digit list (inverse of `decDigits`). -/
def decVal (l : List Char) : Nat :=
  l.foldl (fun acc c => acc * 10 + (c.toNat - 48)) 0

theorem digitChar_toNat_sub (d : Nat) (h : d < 10) :
    (Nat.digitChar d).toNat - 48 = d := by
  interval_cases d <;> rfl

theorem decVal_append_digit (l : List Char) (c : Char) :
    decVal (l ++ [c]) = decVal l * 10 + (c.toNat - 48) := by
  simp [decVal, List.foldl_append]

theorem decVal_decDigitsAux (fuel n : Nat) (h : n < fuel) :
    decVal (decDigitsAux fuel n) = n := by
  induction fuel generalizing n with
  | zero => omega
  | succ fuel ih =>
    rw [decDigitsAux]
    split
    · simp [decVal, digitChar_toNat_sub n (by omega)]
    · have hdiv : n / 10 < n := Nat.div_lt_self (by omega) (by omega)
      rw [decVal_append_digit, ih (n / 10) (by omega),
        digitChar_toNat_sub (n % 10) (Nat.mod_lt n (by omega))]
      omega

theorem decVal_decDigits (n : Nat) : decVal (decDigits n) = n :=
  decVal_decDigitsAux (n + 1) n (Nat.lt_succ_self n)

theorem decDigits_injective : Function.Injective decDigits := by
  intro m n h
  have := congrArg decVal h
  rwa [decVal_decDigits, decVal_decDigits] at this

theorem pyStr_injective : Function.Injective pyStr := by
  intro m n h
  exact decDigits_injective (congrArg String.data h)

/-! ### Sandbox command builders (`_make_docker_command`, `_make_host_command`,
`_make_firejail_command`) -/

/-- `Submission._make_docker_command`. -/
def make_docker_command (student : Student)
    (temp_path assignment_name container_image : String) : List String :=
  ["docker", "run", "-v",
   temp_path ++ ":/git-keeper-tester",
   container_image, "bash",
   "/git-keeper-tester/run_action.sh",
   pathJoin "/git-keeper-tester/" assignment_name,
   student.username, student.email_address,
   student.last_name, student.first_name]

/-- `Submission._make_host_command`. -/
def make_host_command (student : Student) (cfg : Config)
    (temp_run_action_sh_path temp_assignment_path : String) : List String :=
  ["sudo", "--user", cfg.tester_user, "--set-home", "bash",
   temp_run_action_sh_path, temp_assignment_path,
   student.username, student.email_address,
   student.last_name, student.first_name]

/-- `Submission._make_firejail_command`; `tester_home` is
`user_home_dir(config.tester_user)`. -/
def make_firejail_command (student : Student) (cfg : Config)
    (tester_home temp_path assignment_name : String)
    (append_args : Option String) : List String :=
  (["sudo", "--user", cfg.tester_user, "--set-home",
    "firejail", "--noprofile", "--quiet",
    "--private=" ++ temp_path]
   ++ (match append_args with
       | none => []
       | some s => pySplit s))
  ++ ["bash", pathJoin tester_home "run_action.sh",
      pathJoin tester_home assignment_name,
      student.username, student.email_address,
      student.last_name, student.first_name]

/-! ### The run-script generator (`write_run_action_sh`) -/

/-- The `cd_command` computed by `write_run_action_sh`: empty when `run_path`
is `None`, otherwise `cd <run_path>/tests`. -/
def cdCommand : Option String → String
  | none => ""
  | some run_path => "cd " ++ run_path ++ "/tests"

/-- The `run_action.sh` contents: the template string of
`write_run_action_sh` with the `format` slots filled in. -/
def runActionShContents (cd_command : String) (global_timeout : Nat)
    (global_memory_limit : Nat) (interpreter script_name : String) : String :=
  "#!/bin/bash\n"
  ++ cd_command ++ "\n"
  ++ "GLOBAL_TIMEOUT=" ++ pyStr global_timeout ++ "\n"
  ++ "GLOBAL_MEM_LIMIT_MB=" ++ pyStr global_memory_limit ++ "\n"
  ++ "GLOBAL_MEM_LIMIT_KB=$(($GLOBAL_MEM_LIMIT_MB * 1024))\n"
  ++ "ulimit -v $GLOBAL_MEM_LIMIT_KB\n"
  ++ "trap \x27kill -INT -$pid\x27 INT\n"
  ++ "timeout $GLOBAL_TIMEOUT " ++ interpreter ++ " " ++ script_name
  ++ " \"$@\" &\n"
  ++ "pid=$!\n"
  ++ "wait $pid\n"

/-- `write_run_action_sh`: `action` is the result of
`get_action_script_and_interpreter(tests_path)` (an external helper, not in
the sources), as a pair `(script_name, interpreter)` or `none` when either
component is `None`. On `none` it raises `GkeepException` before writing
anything; otherwise it renders the template and installs it (the installed
script contents are returned). -/
def write_run_action_sh (action : Option (String × String))
    (run_path : Option String) (cfg : Config) : Except String String :=
  match action with
  | none => .error "No valid action script found"
  | some (script_name, interpreter) =>
      .ok (runActionShContents (cdCommand run_path) cfg.tests_timeout
             cfg.tests_memory_limit interpreter script_name)

/-! ### Report-file naming (`Submission._add_report`) -/

/-- The candidate filename tried by `_add_report` for counter value `k`:
`report-<ts>.txt` first, then `report-<ts>-<k>.txt`. -/
def reportFilename (ts : String) : Nat → String
  | 0 => "report-" ++ ts ++ ".txt"
  | (k + 1) => "report-" ++ ts ++ "-" ++ pyStr (k + 1) ++ ".txt"

/-- The `while os.path.exists` loop of `_add_report`: starting from counter
`k`, return the first candidate filename not present in `existing` (the
filenames already in the student's report directory). The loop in the source
is unbounded; `fuel` bounds the recursion, and
`findReportName_some_of_fuel` shows `existing.length + 1` fuel always
suffices. -/
def findReportName (existing : List String) (ts : String) :
    Nat → Nat → Option String
  | 0, _ => none
  | (fuel + 1), k =>
      if reportFilename ts k ∈ existing then
        findReportName existing ts fuel (k + 1)
      else some (reportFilename ts k)

/-! ### The orchestrator (`Submission.run_tests`) as an event-trace model -/

/-- An observable action performed by `run_tests` and its helpers, in
program order. -/
inductive Event where
  /-- `email_sender.enqueue(Email(recipient, subject, body))`; the body is a
  list of lines (Python passes either a string or a list of strings). -/
  | email (recipient subject : String) (body : List String)
  /-- `info_updater.enqueue_submission_scan(faculty, class, assignment,
  student)`. -/
  | scan (faculty cls assignment student : String)
  /-- `mkdtemp(...)` created the temporary execution directory. -/
  | tempDirCreated
  /-- `chmod(temp_path, '770')`. -/
  | chmodTemp
  /-- `git_clone(self.student_repo_path, temp_path)`. -/
  | clone
  /-- `git_checkout(temp_assignment_path, self.commit_hash)`. -/
  | checkout
  /-- the locked `cp` of the tests directory (and `test_env.yaml`). -/
  | copyTests
  /-- `write_run_action_sh` installed the generated entrypoint. -/
  | scriptWritten
  /-- `sudo_chown(temp_path, ...)`. -/
  | chownTemp
  /-- `run_command(cmd)`: a subprocess was spawned. -/
  | subprocess (cmd : List String)
  /-- `_add_report` wrote the report file into the reports working copy. -/
  | reportFileWritten
  /-- `_add_report` committed the reports repository. -/
  | reportCommitted
  /-- `rm(temp_path, recursive=True, sudo=True)`. -/
  | tempDirRemoved
  deriving DecidableEq, Repr

instance {α β : Type} [DecidableEq α] [DecidableEq β] :
    DecidableEq (Except α β) := fun x y =>
  match x, y with
  | .error a, .error b =>
      if h : a = b then .isTrue (by rw [h])
      else .isFalse (fun he => by cases he; exact h rfl)
  | .error _, .ok _ => .isFalse (fun he => by cases he)
  | .ok _, .error _ => .isFalse (fun he => by cases he)
  | .ok a, .ok b =>
      if h : a = b then .isTrue (by rw [h])
      else .isFalse (fun he => by cases he; exact h rfl)

/-- Outcomes of the external calls made during one `run_tests` invocation:
the oracle the trace model runs against. An `Option String` error field of
`some msg` means that call raised an exception with text `msg`; `none` means
it succeeded. -/
structure RunEnv where
  /-- result of `parse_submission_repo_path(self.student_repo_path)`. -/
  parsed_faculty : String
  parsed_class : String
  parsed_assignment : String
  /-- `db.class_is_open(class_name, faculty_username)`. -/
  class_open : Bool
  /-- `db.is_disabled(class_name, assignment_name, faculty_username)`. -/
  assignment_disabled : Bool
  /-- the path returned by `mkdtemp`. -/
  temp_path : String
  /-- `user_home_dir(config.tester_user)`. -/
  tester_home : String
  clone_err : Option String
  checkout_err : Option String
  copy_err : Option String
  /-- `get_action_script_and_interpreter(self.tests_path)`. -/
  action_script : Option (String × String)
  chown_err : Option String
  /-- the type resolved from the environment descriptor (read identically at
  both `TestEnv` constructions, since both read the same descriptor). -/
  env_type : TestEnvType
  /-- `test_env.image` (docker only). -/
  image : String
  /-- `test_env.append_args` (firejail only). -/
  append_args : Option String
  /-- outcome of `run_command(['docker', 'pull', image])`. -/
  pull_err : Option String
  /-- outcome of `run_command(cmd)` for the test command: the captured
  output on success, the exception text on failure. -/
  run_result : Except String String
  /-- outcome of `_add_report`'s clone/write/commit of the reports repo. -/
  report_err : Option String
  deriving DecidableEq, Repr

/-- The two emails enqueued by the module-level `report_failure` function. -/
def reportFailureEmails (assignment : String) (student : Student)
    (faculty_email message : String) : List Event :=
  [Event.email student.email_address
     (assignment ++ ": Failed to process submission - contact instructor")
     ["Your submission was received, but something went wrong.",
      "This is likely your instructor\x27s fault, not yours.",
      "Please contact your instructor about this error!"],
   Event.email faculty_email "git-keeper run_tests failure"
     ["student: " ++ student.first_name ++ " " ++ student.last_name,
      "email: " ++ student.email_address,
      "assignment " ++ assignment,
      "further information:",
      message]]

/-- The `run_path` argument `run_tests` passes to `write_run_action_sh`:
the tester home for firejail, `None` for docker, and the temporary directory
for everything else. -/
def runPathArg (env : RunEnv) : Option String :=
  match env.env_type with
  | .firejail => some env.tester_home
  | .docker => none
  | _ => some env.temp_path

/-- The test-results email enqueued after a successful `run_command`. -/
def resultEmail (s : Submission) (env : RunEnv) (body : String) : Event :=
  Event.email s.student.email_address
    ("[" ++ env.parsed_class ++ "] " ++ env.parsed_assignment
      ++ " submission test results") [body]

/-- `run_command(cmd)` followed by the result email and, for a non-faculty
submitter, `_add_report` under the assignment lock and the scan-notification
enqueue: lines 161-175 of `submission.py`. Returns the events performed
inside the `try` block from the subprocess on, and the exception caught at
the boundary, if one was raised. -/
def runAndReport (s : Submission) (env : RunEnv) (cmd : List String) :
    List Event × Option String :=
  match env.run_result with
  | .error msg => ([Event.subprocess cmd], some msg)
  | .ok body =>
      let ev := [Event.subprocess cmd, resultEmail s env body]
      if s.student.username ≠ env.parsed_faculty then
        match env.report_err with
        | some msg => (ev ++ [Event.reportFileWritten], some msg)
        | none =>
            (ev ++ [Event.reportFileWritten, Event.reportCommitted,
              Event.scan s.faculty_username s.class_name s.assignment_name
                s.student.username], none)
      else (ev, none)

/-- The body of the `try` block of `run_tests` (lines 141-175): resolve the
environment type, build the sandbox command, run it and report. Returns the
events performed inside the `try` and the exception caught at the boundary,
if any. -/
def execPhase (s : Submission) (env : RunEnv) (cfg : Config) :
    List Event × Option String :=
  match env.env_type with
  | .docker =>
      let pullEv := [Event.subprocess ["docker", "pull", env.image]]
      match env.pull_err with
      | some msg => (pullEv, some msg)
      | none =>
          let (ev, caught) := runAndReport s env
            (make_docker_command s.student env.temp_path
              env.parsed_assignment env.image)
          (pullEv ++ ev, caught)
  | .firejail =>
      runAndReport s env
        (make_firejail_command s.student cfg env.tester_home env.temp_path
          env.parsed_assignment env.append_args)
  | .host =>
      runAndReport s env
        (make_host_command s.student cfg
          (pathJoin env.temp_path "run_action.sh")
          (pathJoin env.temp_path env.parsed_assignment))
  | .unknown tag => ([], some ("Unknown test env type " ++ tag))

/-- `Submission._send_closed_email`. -/
def closedEmail (s : Submission) (class_name : String) : Event :=
  Event.email s.student.email_address
    ("[" ++ class_name ++ "] class is closed")
    ["You have pushed a submission for a class that is is closed."]

/-- `Submission._send_disabled_email`. -/
def disabledEmail (s : Submission) (class_name assignment_name : String) :
    Event :=
  Event.email s.student.email_address
    ("[" ++ class_name ++ "] assignment " ++ assignment_name
      ++ " is disabled")
    ["You have pushed a submission for assignment " ++ assignment_name
      ++ " which is disabled. No tests were run on your submission."]

/-- `Submission.run_tests`, as a trace: the list of observable events it
performs, in order, and `some msg` when an exception with text `msg` escapes
to the caller (`none` when `run_tests` returns normally). Exceptions raised
between `mkdtemp` and the `try` statement (clone, checkout, the locked copy,
`write_run_action_sh`, `sudo_chown`) are not caught anywhere in `run_tests`,
so the function exits at that point; only exceptions raised inside the `try`
block reach the `except` clause and `report_failure`. The final removal of
the temporary directory sits after the `try`/`except` statement, so it runs
on normal completion and on the caught-exception path, but not when an
earlier exception escapes. -/
def run_tests (s : Submission) (env : RunEnv) (cfg : Config) :
    List Event × Option String :=
  if !env.class_open then
    ([closedEmail s env.parsed_class], none)
  else if env.assignment_disabled then
    ([disabledEmail s env.parsed_class env.parsed_assignment], none)
  else
    let ev := [Event.tempDirCreated, Event.chmodTemp]
    match env.clone_err with
    | some msg => (ev, some msg)
    | none =>
    let ev := ev ++ [Event.clone]
    match env.checkout_err with
    | some msg => (ev, some msg)
    | none =>
    let ev := ev ++ [Event.checkout]
    match env.copy_err with
    | some msg => (ev, some msg)
    | none =>
    let ev := ev ++ [Event.copyTests]
    match write_run_action_sh env.action_script (runPathArg env) cfg with
    | .error msg => (ev, some msg)
    | .ok _contents =>
    let ev := ev ++ [Event.scriptWritten]
    match env.chown_err with
    | some msg => (ev, some msg)
    | none =>
    let ev := ev ++ [Event.chownTemp]
    let (tryEv, caught) := execPhase s env cfg
    let ev := ev ++ tryEv ++
      (match caught with
       | some msg =>
           reportFailureEmails env.parsed_assignment s.student
             s.faculty_email msg
       | none => [])
    (ev ++ [Event.tempDirRemoved], none)

/-! ### Spec-side notions and fixtures -/

/-- All the calls between the precondition checks and the `try` statement
succeed: the submission run reaches the orchestrator's failure boundary. -/
def RunEnv.prepOk (env : RunEnv) : Prop :=
  env.class_open = true ∧ env.assignment_disabled = false ∧
  env.clone_err = none ∧ env.checkout_err = none ∧ env.copy_err = none ∧
  env.action_script.isSome = true ∧ env.chown_err = none

instance (env : RunEnv) : Decidable env.prepOk := by
  unfold RunEnv.prepOk; infer_instance

/-- The environment dispatch inside the `try` block reaches `run_command` on
the test command: a known sandbox kind, with a successful image pull in the
docker case. -/
def RunEnv.dispatchOk (env : RunEnv) : Prop :=
  env.env_type = .host ∨ env.env_type = .firejail ∨
  (env.env_type = .docker ∧ env.pull_err = none)

instance (env : RunEnv) : Decidable env.dispatchOk := by
  unfold RunEnv.dispatchOk; infer_instance

def Event.isEmail : Event → Bool
  | .email .. => true
  | _ => false

def Event.isSubprocess : Event → Bool
  | .subprocess _ => true
  | _ => false

/-- Recognizes the faculty-diagnostic email enqueued by `report_failure`
(its subject is the fixed string `git-keeper run_tests failure`). -/
def Event.isFacultyFailureNotice : Event → Bool
  | .email _ subj _ => subj == "git-keeper run_tests failure"
  | _ => false

/-- The four trailing positional arguments of every sandbox command:
username, email address, last name, first name. -/
def studentArgs (st : Student) : List String :=
  [st.username, st.email_address, st.last_name, st.first_name]

/-- The common shape of the three sandbox commands, from the spec: some
sandbox-specific boundary, then a script whose name is `run_action.sh`, the
execution path for the assignment, and the student's username, email
address, last name and first name, in that order. -/
def sandboxContract (cmd : List String) (assignment : String)
    (st : Student) : Prop :=
  ∃ pre script exec, cmd = pre ++ script :: exec :: studentArgs st ∧
    "run_action.sh".data <:+ script.data ∧
    assignment.data <:+ exec.data

/-- Sample fixtures for witnesses and counterexamples. -/
def sampleStudent : Student :=
  ⟨"alice", "alice@school.edu", "Liddell", "Alice"⟩

def sampleFacultyStudent : Student :=
  ⟨"prof", "prof@school.edu", "Smith", "Pat"⟩

def sampleSub : Submission :=
  ⟨sampleStudent, "/home/prof/classes/cs1/hw1/alice.git", "abc123",
   "/home/prof/hw1/tests", "/home/prof/hw1/reports", "prof",
   "prof@school.edu", "cs1", "hw1", "/home/prof/hw1/test_env.yaml"⟩

def sampleFacultySub : Submission :=
  ⟨sampleFacultyStudent, "/home/prof/classes/cs1/hw1/prof.git", "abc124",
   "/home/prof/hw1/tests", "/home/prof/hw1/reports", "prof",
   "prof@school.edu", "cs1", "hw1", "/home/prof/hw1/test_env.yaml"⟩

def sampleCfg : Config := ⟨"tester", "keeper", 300, 1024⟩

/-- A fully successful host-environment run for a non-faculty student. -/
def sampleEnv : RunEnv :=
  ⟨"prof", "cs1", "hw1", true, false, "/home/tester/163_x", "/home/tester",
   none, none, none, some ("action.sh", "bash"), none, TestEnvType.host,
   "", none, none, .ok "All tests passed", none⟩

/-! ### Branch-shape lemmas for `run_tests` -/

theorem run_tests_closed (s : Submission) (env : RunEnv) (cfg : Config)
    (h : env.class_open = false) :
    run_tests s env cfg = ([closedEmail s env.parsed_class], none) := by
  rw [run_tests]; simp [h]

theorem run_tests_disabled (s : Submission) (env : RunEnv) (cfg : Config)
    (h1 : env.class_open = true) (h2 : env.assignment_disabled = true) :
    run_tests s env cfg =
      ([disabledEmail s env.parsed_class env.parsed_assignment], none) := by
  rw [run_tests]; simp [h1, h2]

theorem run_tests_clone_err (s : Submission) (env : RunEnv) (cfg : Config)
    (msg : String) (h1 : env.class_open = true)
    (h2 : env.assignment_disabled = false)
    (h : env.clone_err = some msg) :
    run_tests s env cfg =
      ([Event.tempDirCreated, Event.chmodTemp], some msg) := by
  rw [run_tests]; simp [h1, h2, h]

theorem run_tests_checkout_err (s : Submission) (env : RunEnv) (cfg : Config)
    (msg : String) (h1 : env.class_open = true)
    (h2 : env.assignment_disabled = false) (h3 : env.clone_err = none)
    (h : env.checkout_err = some msg) :
    run_tests s env cfg =
      ([Event.tempDirCreated, Event.chmodTemp, Event.clone], some msg) := by
  rw [run_tests]; simp [h1, h2, h3, h]

theorem run_tests_copy_err (s : Submission) (env : RunEnv) (cfg : Config)
    (msg : String) (h1 : env.class_open = true)
    (h2 : env.assignment_disabled = false) (h3 : env.clone_err = none)
    (h4 : env.checkout_err = none) (h : env.copy_err = some msg) :
    run_tests s env cfg =
      ([Event.tempDirCreated, Event.chmodTemp, Event.clone, Event.checkout],
        some msg) := by
  rw [run_tests]; simp [h1, h2, h3, h4, h]

theorem run_tests_no_script (s : Submission) (env : RunEnv) (cfg : Config)
    (h1 : env.class_open = true) (h2 : env.assignment_disabled = false)
    (h3 : env.clone_err = none) (h4 : env.checkout_err = none)
    (h5 : env.copy_err = none) (h : env.action_script = none) :
    run_tests s env cfg =
      ([Event.tempDirCreated, Event.chmodTemp, Event.clone, Event.checkout,
        Event.copyTests], some "No valid action script found") := by
  rw [run_tests]; simp [h1, h2, h3, h4, h5, h, write_run_action_sh]

theorem run_tests_chown_err (s : Submission) (env : RunEnv) (cfg : Config)
    (msg : String) (sc it : String) (h1 : env.class_open = true)
    (h2 : env.assignment_disabled = false) (h3 : env.clone_err = none)
    (h4 : env.checkout_err = none) (h5 : env.copy_err = none)
    (h6 : env.action_script = some (sc, it)) (h : env.chown_err = some msg) :
    run_tests s env cfg =
      ([Event.tempDirCreated, Event.chmodTemp, Event.clone, Event.checkout,
        Event.copyTests, Event.scriptWritten], some msg) := by
  rw [run_tests]; simp [h1, h2, h3, h4, h5, h6, h, write_run_action_sh]

theorem run_tests_of_prepOk (s : Submission) (env : RunEnv) (cfg : Config)
    (h : env.prepOk) :
    run_tests s env cfg =
      ([Event.tempDirCreated, Event.chmodTemp, Event.clone, Event.checkout,
        Event.copyTests, Event.scriptWritten, Event.chownTemp]
        ++ (execPhase s env cfg).1
        ++ (match (execPhase s env cfg).2 with
            | some msg => reportFailureEmails env.parsed_assignment s.student
                s.faculty_email msg
            | none => [])
        ++ [Event.tempDirRemoved], none) := by
  obtain ⟨h1, h2, h3, h4, h5, h6, h7⟩ := h
  obtain ⟨⟨sc, it⟩, hsc⟩ := Option.isSome_iff_exists.mp h6
  rw [run_tests]
  rcases hE : execPhase s env cfg with ⟨tryEv, caught⟩
  simp [h1, h2, h3, h4, h5, h7, hsc, write_run_action_sh, hE]

/-! ### Computation lemmas for the `try`-block body -/

theorem runAndReport_run_err (s : Submission) (env : RunEnv)
    (cmd : List String) (msg : String) (h : env.run_result = .error msg) :
    runAndReport s env cmd = ([Event.subprocess cmd], some msg) := by
  rw [runAndReport, h]

theorem runAndReport_ok_faculty (s : Submission) (env : RunEnv)
    (cmd : List String) (body : String) (h : env.run_result = .ok body)
    (hf : s.student.username = env.parsed_faculty) :
    runAndReport s env cmd =
      ([Event.subprocess cmd, resultEmail s env body], none) := by
  rw [runAndReport, h]; simp [hf]

theorem runAndReport_ok_report_err (s : Submission) (env : RunEnv)
    (cmd : List String) (body msg : String) (h : env.run_result = .ok body)
    (hf : s.student.username ≠ env.parsed_faculty)
    (hr : env.report_err = some msg) :
    runAndReport s env cmd =
      ([Event.subprocess cmd, resultEmail s env body,
        Event.reportFileWritten], some msg) := by
  rw [runAndReport, h]; simp [hf, hr]

theorem runAndReport_ok_report_ok (s : Submission) (env : RunEnv)
    (cmd : List String) (body : String) (h : env.run_result = .ok body)
    (hf : s.student.username ≠ env.parsed_faculty)
    (hr : env.report_err = none) :
    runAndReport s env cmd =
      ([Event.subprocess cmd, resultEmail s env body,
        Event.reportFileWritten, Event.reportCommitted,
        Event.scan s.faculty_username s.class_name s.assignment_name
          s.student.username], none) := by
  rw [runAndReport, h]; simp [hf, hr]

theorem execPhase_host (s : Submission) (env : RunEnv) (cfg : Config)
    (h : env.env_type = .host) :
    execPhase s env cfg =
      runAndReport s env
        (make_host_command s.student cfg
          (pathJoin env.temp_path "run_action.sh")
          (pathJoin env.temp_path env.parsed_assignment)) := by
  rw [execPhase, h]

theorem execPhase_firejail (s : Submission) (env : RunEnv) (cfg : Config)
    (h : env.env_type = .firejail) :
    execPhase s env cfg =
      runAndReport s env
        (make_firejail_command s.student cfg env.tester_home env.temp_path
          env.parsed_assignment env.append_args) := by
  rw [execPhase, h]

theorem execPhase_docker (s : Submission) (env : RunEnv) (cfg : Config)
    (h : env.env_type = .docker) (hp : env.pull_err = none) :
    execPhase s env cfg =
      ([Event.subprocess ["docker", "pull", env.image]]
        ++ (runAndReport s env
             (make_docker_command s.student env.temp_path
               env.parsed_assignment env.image)).1,
       (runAndReport s env
         (make_docker_command s.student env.temp_path
           env.parsed_assignment env.image)).2) := by
  rw [execPhase, h]
  simp [hp]

theorem execPhase_unknown (s : Submission) (env : RunEnv) (cfg : Config)
    (tag : String) (h : env.env_type = .unknown tag) :
    execPhase s env cfg = ([], some ("Unknown test env type " ++ tag)) := by
  rw [execPhase, h]

/-! ### The report-file invariant: only non-faculty submitters get reports -/

theorem reportFileWritten_runAndReport (s : Submission) (env : RunEnv)
    (cmd : List String)
    (h : Event.reportFileWritten ∈ (runAndReport s env cmd).1) :
    s.student.username ≠ env.parsed_faculty := by
  rw [runAndReport] at h
  rcases henv : env.run_result with msg | body <;> rw [henv] at h
  · simp at h
  · by_cases hf : s.student.username = env.parsed_faculty
    · simp [hf, resultEmail] at h
    · exact hf

theorem execPhase_docker_pull_err (s : Submission) (env : RunEnv)
    (cfg : Config) (msg : String) (h : env.env_type = .docker)
    (hp : env.pull_err = some msg) :
    execPhase s env cfg =
      ([Event.subprocess ["docker", "pull", env.image]], some msg) := by
  rw [execPhase, h]; simp [hp]

theorem reportFileWritten_execPhase (s : Submission) (env : RunEnv)
    (cfg : Config)
    (h : Event.reportFileWritten ∈ (execPhase s env cfg).1) :
    s.student.username ≠ env.parsed_faculty := by
  rcases henv : env.env_type with _ | _ | _ | tag
  · rw [execPhase_host s env cfg henv] at h
    exact reportFileWritten_runAndReport _ _ _ h
  · rw [execPhase_firejail s env cfg henv] at h
    exact reportFileWritten_runAndReport _ _ _ h
  · rcases hp : env.pull_err with _ | msg
    · rw [execPhase_docker s env cfg henv hp] at h
      simp only [List.mem_append] at h
      rcases h with h | h
      · simp at h
      · exact reportFileWritten_runAndReport _ _ _ h
    · rw [execPhase_docker_pull_err s env cfg msg henv hp] at h
      simp at h
  · rw [execPhase_unknown s env cfg tag henv] at h
    simp at h

theorem reportFileWritten_run_tests (s : Submission) (env : RunEnv)
    (cfg : Config)
    (h : Event.reportFileWritten ∈ (run_tests s env cfg).1) :
    s.student.username ≠ env.parsed_faculty := by
  by_cases h1 : env.class_open = true
  case neg =>
    rw [run_tests_closed s env cfg (by simpa using h1)] at h
    simp [closedEmail] at h
  by_cases h2 : env.assignment_disabled = true
  case pos =>
    rw [run_tests_disabled s env cfg h1 h2] at h
    simp [disabledEmail] at h
  have h2x : env.assignment_disabled = false := by simpa using h2
  rcases h3 : env.clone_err with _ | msg3
  on_goal 2 =>
    rw [run_tests_clone_err s env cfg msg3 h1 h2x h3] at h
    simp at h
  rcases h4 : env.checkout_err with _ | msg4
  on_goal 2 =>
    rw [run_tests_checkout_err s env cfg msg4 h1 h2x h3 h4] at h
    simp at h
  rcases h5 : env.copy_err with _ | msg5
  on_goal 2 =>
    rw [run_tests_copy_err s env cfg msg5 h1 h2x h3 h4 h5] at h
    simp at h
  rcases h6 : env.action_script with _ | p6
  on_goal 1 =>
    rw [run_tests_no_script s env cfg h1 h2x h3 h4 h5 h6] at h
    simp at h
  rcases h7 : env.chown_err with _ | msg7
  on_goal 2 =>
    rw [run_tests_chown_err s env cfg msg7 p6.1 p6.2 h1 h2x h3 h4 h5
      (by rw [h6]) h7] at h
    simp at h
  have hp : env.prepOk := ⟨h1, h2x, h3, h4, h5, by simp [h6], h7⟩
  rw [run_tests_of_prepOk s env cfg hp] at h
  simp only [List.mem_append] at h
  rcases h with ((h | h) | h) | h
  · simp at h
  · exact reportFileWritten_execPhase s env cfg h
  · rcases hc : (execPhase s env cfg).2 with _ | msg <;> rw [hc] at h <;>
      simp [reportFailureEmails] at h
  · simp at h

theorem apology_subject_ne_failure_subject (a : String) :
    ((a ++ ": Failed to process submission - contact instructor")
      == "git-keeper run_tests failure") = false := by
  rw [beq_eq_false_iff_ne]
  intro hEq
  have hlen := congrArg String.length hEq
  rw [String.length_append] at hlen
  have h1 : (": Failed to process submission - contact instructor").length
      = 51 := by decide
  have h2 : ("git-keeper run_tests failure").length = 28 := by decide
  omega

/-! ### C1: the failure boundary of `run_tests` -/

/-- C1 counterexample: with an open class, an enabled assignment and a
failing `git_clone` (a Prepared-step exception), `run_tests` enqueues no
email at all — in particular the Failure Reporter is never invoked — and the
clone exception escapes to the caller. -/
theorem clone_failure_escapes_run_tests :
    (run_tests sampleSub
        { sampleEnv with clone_err := some "fatal: clone failed" }
        sampleCfg).2 = some "fatal: clone failed" ∧
    (run_tests sampleSub
        { sampleEnv with clone_err := some "fatal: clone failed" }
        sampleCfg).1.countP Event.isEmail = 0 := by
  decide

/-- C1 (amended): only exceptions raised inside the `try` block — the
Executing step (environment resolution, image pull, subprocess run) and the
Completed step (report commit) — are caught at the failure boundary, which
invokes the Failure Reporter with the raw error text and does not re-raise;
exceptions raised during the Prepared step (clone, checkout, test-asset
copy, run-script generation, ownership change) propagate to the caller
uncaught. Stated here for runs whose Prepared step succeeds: `run_tests`
returns normally, and whenever the `try` block raised `msg`, both Failure
Reporter emails (built from the raw `msg`) are in the event trace. -/
theorem run_tests_failure_boundary (s : Submission) (env : RunEnv)
    (cfg : Config) (h : env.prepOk) :
    (run_tests s env cfg).2 = none ∧
    ∀ msg, (execPhase s env cfg).2 = some msg →
      ∀ e ∈ reportFailureEmails env.parsed_assignment s.student
          s.faculty_email msg,
        e ∈ (run_tests s env cfg).1 := by
  rw [run_tests_of_prepOk s env cfg h]
  refine ⟨rfl, ?_⟩
  intro msg hmsg e he
  rw [hmsg]
  simp only [List.mem_append]
  exact Or.inl (Or.inr he)

/-- Witness for `run_tests_failure_boundary` at a host-environment run whose
test subprocess fails. -/
theorem run_tests_failure_boundary_witness :
    (run_tests sampleSub
        { sampleEnv with run_result := .error "tests crashed" }
        sampleCfg).2 = none ∧
    ∀ msg, (execPhase sampleSub
        { sampleEnv with run_result := .error "tests crashed" }
        sampleCfg).2 = some msg →
      ∀ e ∈ reportFailureEmails "hw1" sampleStudent "prof@school.edu" msg,
        e ∈ (run_tests sampleSub
          { sampleEnv with run_result := .error "tests crashed" }
          sampleCfg).1 :=
  run_tests_failure_boundary sampleSub
    { sampleEnv with run_result := .error "tests crashed" } sampleCfg
    (by decide)

/-! ### C2: removal of the temporary execution directory -/

/-- C2 counterexample: on a clone failure the temporary directory has been
created but is not removed — the exception escapes before the cleanup
statement. -/
theorem temp_dir_leaked_on_clone_failure :
    Event.tempDirCreated ∈ (run_tests sampleSub
        { sampleEnv with clone_err := some "fatal: clone failed" }
        sampleCfg).1 ∧
    Event.tempDirRemoved ∉ (run_tests sampleSub
        { sampleEnv with clone_err := some "fatal: clone failed" }
        sampleCfg).1 := by
  decide

/-- C2 (amended): the temporary directory is removed before `run_tests`
returns on every run whose Prepared step succeeds — normal completion,
faculty-owner completion, and every failure caught at the boundary — but a
Prepared-step exception (clone, checkout, copy, run-script generation,
ownership change) escapes before the cleanup statement, leaving the
directory behind. -/
theorem temp_dir_removed_at_boundary (s : Submission) (env : RunEnv)
    (cfg : Config) (h : env.prepOk) :
    Event.tempDirRemoved ∈ (run_tests s env cfg).1 := by
  rw [run_tests_of_prepOk s env cfg h]
  simp

/-- Witness for `temp_dir_removed_at_boundary` at a firejail run whose
report commit fails. -/
theorem temp_dir_removed_at_boundary_witness :
    Event.tempDirRemoved ∈ (run_tests sampleSub
        { sampleEnv with env_type := TestEnvType.firejail,
                         report_err := some "commit failed" }
        sampleCfg).1 :=
  temp_dir_removed_at_boundary sampleSub
    { sampleEnv with env_type := TestEnvType.firejail,
                     report_err := some "commit failed" }
    sampleCfg (by decide)

/-! ### C3: failing run-script generation -/

/-- C3 counterexample: when no action-script/interpreter pair resolves, the
generator does raise before producing a script, and no subprocess is ever
spawned — but the exception is raised before the `try` statement, so it
escapes `run_tests` and the Failure Reporter is never invoked (no email
event of any kind appears in the trace). -/
theorem no_action_script_escapes_unreported :
    write_run_action_sh none
        (runPathArg { sampleEnv with action_script := none }) sampleCfg
      = .error "No valid action script found" ∧
    run_tests sampleSub { sampleEnv with action_script := none } sampleCfg
      = ([Event.tempDirCreated, Event.chmodTemp, Event.clone, Event.checkout,
          Event.copyTests], some "No valid action script found") := by
  constructor
  · rfl
  · decide

/-- C3 (amended): if no action-script/interpreter pair can be resolved,
`write_run_action_sh` raises before writing or installing any entrypoint,
this happens before any subprocess is spawned — but the exception is not
funneled to the failure boundary: it propagates out of `run_tests` to the
caller, and the Failure Reporter is not invoked. The trace stops at the
test-asset copy, with no subprocess, no email, and no cleanup event. -/
theorem no_action_script_fails_before_spawn (s : Submission) (env : RunEnv)
    (cfg : Config) (h1 : env.class_open = true)
    (h2 : env.assignment_disabled = false) (h3 : env.clone_err = none)
    (h4 : env.checkout_err = none) (h5 : env.copy_err = none)
    (h6 : env.action_script = none) :
    write_run_action_sh env.action_script (runPathArg env) cfg =
      .error "No valid action script found" ∧
    run_tests s env cfg =
      ([Event.tempDirCreated, Event.chmodTemp, Event.clone, Event.checkout,
        Event.copyTests], some "No valid action script found") :=
  ⟨by rw [h6]; rfl, run_tests_no_script s env cfg h1 h2 h3 h4 h5 h6⟩

/-- Witness for `no_action_script_fails_before_spawn`. -/
theorem no_action_script_fails_before_spawn_witness :
    write_run_action_sh
        ({ sampleEnv with action_script := none } : RunEnv).action_script
        (runPathArg { sampleEnv with action_script := none }) sampleCfg =
      .error "No valid action script found" ∧
    run_tests sampleSub { sampleEnv with action_script := none } sampleCfg =
      ([Event.tempDirCreated, Event.chmodTemp, Event.clone, Event.checkout,
        Event.copyTests], some "No valid action script found") :=
  no_action_script_fails_before_spawn sampleSub
    { sampleEnv with action_script := none } sampleCfg
    rfl rfl rfl rfl rfl rfl

/-! ### C4: unrecognized environment type -/

/-- C4: when the environment descriptor resolves to an unknown type and the
Prepared step succeeded, the trace is exactly the preparation events, the two
Failure Reporter emails (with the raw `Unknown test env type` text) and the
cleanup — no subprocess of any kind is spawned, and the faculty failure
notice appears exactly once. -/
theorem unknown_env_no_subprocess_reports_once (s : Submission)
    (env : RunEnv) (cfg : Config) (tag : String) (h : env.prepOk)
    (ht : env.env_type = .unknown tag) :
    (run_tests s env cfg).1 =
      [Event.tempDirCreated, Event.chmodTemp, Event.clone, Event.checkout,
       Event.copyTests, Event.scriptWritten, Event.chownTemp]
      ++ reportFailureEmails env.parsed_assignment s.student s.faculty_email
           ("Unknown test env type " ++ tag)
      ++ [Event.tempDirRemoved] ∧
    (run_tests s env cfg).1.countP Event.isSubprocess = 0 ∧
    (run_tests s env cfg).1.countP Event.isFacultyFailureNotice = 1 := by
  rw [run_tests_of_prepOk s env cfg h, execPhase_unknown s env cfg tag ht]
  refine ⟨by simp, ?_, ?_⟩
  · simp [reportFailureEmails, Event.isSubprocess]
  · simp [reportFailureEmails, Event.isFacultyFailureNotice,
      apology_subject_ne_failure_subject]

/-- Witness for `unknown_env_no_subprocess_reports_once` at type tag
`vm`. -/
theorem unknown_env_no_subprocess_reports_once_witness :
    (run_tests sampleSub
        { sampleEnv with env_type := TestEnvType.unknown "vm" }
        sampleCfg).1 =
      [Event.tempDirCreated, Event.chmodTemp, Event.clone, Event.checkout,
       Event.copyTests, Event.scriptWritten, Event.chownTemp]
      ++ reportFailureEmails "hw1" sampleStudent "prof@school.edu"
           ("Unknown test env type " ++ "vm")
      ++ [Event.tempDirRemoved] ∧
    (run_tests sampleSub
        { sampleEnv with env_type := TestEnvType.unknown "vm" }
        sampleCfg).1.countP Event.isSubprocess = 0 ∧
    (run_tests sampleSub
        { sampleEnv with env_type := TestEnvType.unknown "vm" }
        sampleCfg).1.countP Event.isFacultyFailureNotice = 1 :=
  unknown_env_no_subprocess_reports_once sampleSub
    { sampleEnv with env_type := TestEnvType.unknown "vm" } sampleCfg "vm"
    (by decide) rfl

/-! ### C5: reports only for non-faculty submitters -/

/-- C5: a report file is written only when the submitting student's username
differs from the (parsed) faculty owner; and when the faculty owner submits
and the run completes, the result email is still enqueued to them while no
report file is written and no scan notification is enqueued. -/
theorem report_only_non_faculty (s : Submission) (env : RunEnv)
    (cfg : Config) :
    (Event.reportFileWritten ∈ (run_tests s env cfg).1 →
      s.student.username ≠ env.parsed_faculty) ∧
    (∀ body, env.prepOk → env.dispatchOk → env.run_result = .ok body →
      s.student.username = env.parsed_faculty →
      resultEmail s env body ∈ (run_tests s env cfg).1 ∧
      Event.reportFileWritten ∉ (run_tests s env cfg).1 ∧
      ∀ f c a u, Event.scan f c a u ∉ (run_tests s env cfg).1) := by
  refine ⟨reportFileWritten_run_tests s env cfg, ?_⟩
  intro body hp hd hrun hf
  rw [run_tests_of_prepOk s env cfg hp]
  rcases hd with ht | ht | ⟨ht, hpull⟩
  · rw [execPhase_host s env cfg ht,
      runAndReport_ok_faculty s env _ body hrun hf]
    refine ⟨by simp, by simp [resultEmail], ?_⟩
    intro f c a u
    simp [resultEmail]
  · rw [execPhase_firejail s env cfg ht,
      runAndReport_ok_faculty s env _ body hrun hf]
    refine ⟨by simp, by simp [resultEmail], ?_⟩
    intro f c a u
    simp [resultEmail]
  · rw [execPhase_docker s env cfg ht hpull,
      runAndReport_ok_faculty s env _ body hrun hf]
    refine ⟨by simp, by simp [resultEmail], ?_⟩
    intro f c a u
    simp [resultEmail]

/-- Witness for `report_only_non_faculty`: the non-faculty sample run does
write a report (so the first implication fires with a true antecedent), and
the faculty-owner run keeps its result email while writing no report and
enqueuing no scan. -/
theorem report_only_non_faculty_witness :
    sampleStudent.username ≠ sampleEnv.parsed_faculty ∧
    (resultEmail sampleFacultySub sampleEnv "All tests passed"
        ∈ (run_tests sampleFacultySub sampleEnv sampleCfg).1 ∧
      Event.reportFileWritten ∉
        (run_tests sampleFacultySub sampleEnv sampleCfg).1 ∧
      ∀ f c a u, Event.scan f c a u ∉
        (run_tests sampleFacultySub sampleEnv sampleCfg).1) :=
  ⟨(report_only_non_faculty sampleSub sampleEnv sampleCfg).1 (by decide),
   (report_only_non_faculty sampleFacultySub sampleEnv sampleCfg).2
     "All tests passed" (by decide) (Or.inl rfl) rfl rfl⟩

/-! ### C6: report filenames never collide with existing files -/

theorem reportFilename_injective (ts : String) :
    Function.Injective (reportFilename ts) := by
  have hbase : ∀ k, reportFilename ts 0 ≠ reportFilename ts (k + 1) := by
    intro k hEq
    have hd := congrArg String.data hEq
    simp only [reportFilename, String.data_append, List.append_assoc] at hd
    have h1 := List.append_cancel_left hd
    have h2 := List.append_cancel_left h1
    simp [List.cons.injEq] at h2
  intro j k h
  match j, k with
  | 0, 0 => rfl
  | 0, k + 1 => exact absurd h (hbase k)
  | j + 1, 0 => exact absurd h.symm (hbase j)
  | j + 1, k + 1 =>
      have hd := congrArg String.data h
      simp only [reportFilename, String.data_append, List.append_assoc] at hd
      have h1 := List.append_cancel_left hd
      have h2 := List.append_cancel_left h1
      have h3 := List.append_cancel_left h2
      have h4 := List.append_cancel_right h3
      have : (j + 1) = (k + 1) := decDigits_injective h4
      omega

theorem findReportName_not_mem (existing : List String) (ts : String) :
    ∀ fuel k name, findReportName existing ts fuel k = some name →
      name ∉ existing := by
  intro fuel
  induction fuel with
  | zero => intro k name h; simp [findReportName] at h
  | succ fuel ih =>
      intro k name h
      rw [findReportName] at h
      by_cases hmem : reportFilename ts k ∈ existing
      · rw [if_pos hmem] at h
        exact ih (k + 1) name h
      · rw [if_neg hmem] at h
        cases h
        exact hmem

theorem findReportName_none_mem (existing : List String) (ts : String) :
    ∀ fuel k, findReportName existing ts fuel k = none →
      ∀ i, i < fuel → reportFilename ts (k + i) ∈ existing := by
  intro fuel
  induction fuel with
  | zero => intro k _ i hi; omega
  | succ fuel ih =>
      intro k h i hi
      rw [findReportName] at h
      by_cases hmem : reportFilename ts k ∈ existing
      · rw [if_pos hmem] at h
        match i with
        | 0 => simpa using hmem
        | i + 1 =>
            have := ih (k + 1) h i (by omega)
            have harith : k + 1 + i = k + (i + 1) := by omega
            rwa [harith] at this
      · rw [if_neg hmem] at h
        exact absurd h (by simp)

theorem findReportName_total (existing : List String) (ts : String) :
    ∃ name, findReportName existing ts (existing.length + 1) 0
      = some name := by
  by_contra hno
  push_neg at hno
  have hnone : findReportName existing ts (existing.length + 1) 0 = none := by
    rcases hE : findReportName existing ts (existing.length + 1) 0
      with _ | nm
    · rfl
    · exact absurd hE (hno nm)
  have hmem := findReportName_none_mem existing ts (existing.length + 1) 0
    hnone
  have hsub : (List.range (existing.length + 1)).map (reportFilename ts)
      ⊆ existing := by
    intro x hx
    simp only [List.mem_map, List.mem_range] at hx
    obtain ⟨i, hi, rfl⟩ := hx
    simpa using hmem i hi
  have hnd : ((List.range (existing.length + 1)).map
      (reportFilename ts)).Nodup :=
    (List.nodup_range _).map (reportFilename_injective ts)
  have hle := (hnd.subperm hsub).length_le
  simp at hle

/-- C6: the report archiver's collision loop always finds a name that is not
among the existing files (so no report is ever overwritten), and for two
completions in the same second the names are `report-<ts>.txt` and
`report-<ts>-1.txt`: with an empty directory the first candidate is taken,
and with `report-<ts>.txt` already present the `-1` suffix is taken. -/
theorem report_never_overwritten (existing : List String) (ts : String) :
    (∃ name, findReportName existing ts (existing.length + 1) 0 = some name ∧
      name ∉ existing) ∧
    findReportName [] ts 1 0 = some ("report-" ++ ts ++ ".txt") ∧
    findReportName ["report-" ++ ts ++ ".txt"] ts 2 0 =
      some ("report-" ++ ts ++ "-1.txt") := by
  refine ⟨?_, ?_, ?_⟩
  · obtain ⟨name, h⟩ := findReportName_total existing ts
    exact ⟨name, h, findReportName_not_mem existing ts _ 0 name h⟩
  · rw [findReportName, if_neg (by simp)]
    rfl
  · rw [findReportName, if_pos (by simp [reportFilename]),
      findReportName, if_neg ?_]
    · have h1 : pyStr 1 = "1" := by decide
      have : reportFilename ts 1 = "report-" ++ ts ++ "-1.txt" := by
        apply String.ext
        simp [reportFilename, h1, String.data_append, List.append_assoc]
      rw [this]
    · intro hmem
      rw [List.mem_singleton] at hmem
      have h10 : (1 : Nat) = 0 := reportFilename_injective ts
        (by rw [hmem]; rfl)
      omega

/-! ### C7: the generated entrypoint, bit for bit -/

/-- The generated-entrypoint contract, following the spec's wording line by
line: the shebang; (1) the optional `cd` into a tests subdirectory; (2) a
timeout in seconds and a memory ceiling in megabytes converted to kilobytes
by multiplying by 1024; (3) that value applied as a virtual-memory `ulimit`;
(4) a trap forwarding an interrupt to the background job's process group;
(5) `timeout <seconds> <interpreter> <script> "$@"` run in the background
and then waited on. -/
def specEntrypointLines (cd_command : String) (timeout_seconds : Nat)
    (memory_limit_mb : Nat) (interpreter script_name : String) :
    List String :=
  ["#!/bin/bash",
   cd_command,
   "GLOBAL_TIMEOUT=" ++ pyStr timeout_seconds,
   "GLOBAL_MEM_LIMIT_MB=" ++ pyStr memory_limit_mb,
   "GLOBAL_MEM_LIMIT_KB=$(($GLOBAL_MEM_LIMIT_MB * 1024))",
   "ulimit -v $GLOBAL_MEM_LIMIT_KB",
   "trap \x27kill -INT -$pid\x27 INT",
   "timeout $GLOBAL_TIMEOUT " ++ interpreter ++ " " ++ script_name
     ++ " \"$@\" &",
   "pid=$!",
   "wait $pid"]

set_option maxRecDepth 4000 in
/-- C7: the script installed by `write_run_action_sh` is, bit-exact, the
newline-joined spec contract `specEntrypointLines` (with a trailing
newline): the optional cd, the timeout and MB→KB memory conversion, the
virtual-memory ulimit, the interrupt trap forwarding to the background
job's process group, and the backgrounded `timeout` invocation that is then
waited on. -/
theorem run_action_sh_bit_exact (rp : Option String) (cfg : Config)
    (script_name interpreter : String) :
    write_run_action_sh (some (script_name, interpreter)) rp cfg =
      .ok (String.intercalate "\n"
        (specEntrypointLines (cdCommand rp) cfg.tests_timeout
          cfg.tests_memory_limit interpreter script_name) ++ "\n") := by
  have h : runActionShContents (cdCommand rp) cfg.tests_timeout
      cfg.tests_memory_limit interpreter script_name
      = String.intercalate "\n"
          (specEntrypointLines (cdCommand rp) cfg.tests_timeout
            cfg.tests_memory_limit interpreter script_name) ++ "\n" := by
    apply String.ext
    simp only [runActionShContents, specEntrypointLines, String.intercalate,
      String.intercalate.go, String.data_append, List.append_assoc,
      List.cons_append, List.nil_append]
  rw [write_run_action_sh, h]

/-! ### C8: precondition short-circuits -/

/-- C8: for a closed class `run_tests` enqueues exactly one "class closed"
email and performs nothing else (no temp directory, clone, checkout,
subprocess or report event, and a normal return); for an open class with a
disabled assignment it enqueues exactly one "assignment disabled" email and
performs nothing else. -/
theorem precondition_short_circuit (s : Submission) (env : RunEnv)
    (cfg : Config) :
    (env.class_open = false →
      run_tests s env cfg = ([closedEmail s env.parsed_class], none)) ∧
    (env.class_open = true → env.assignment_disabled = true →
      run_tests s env cfg =
        ([disabledEmail s env.parsed_class env.parsed_assignment], none)) :=
  ⟨fun h => run_tests_closed s env cfg h,
   fun h1 h2 => run_tests_disabled s env cfg h1 h2⟩

/-- Witness for `precondition_short_circuit`: a closed-class run and a
disabled-assignment run on the sample fixtures. -/
theorem precondition_short_circuit_witness :
    run_tests sampleSub { sampleEnv with class_open := false } sampleCfg =
      ([closedEmail sampleSub "cs1"], none) ∧
    run_tests sampleSub { sampleEnv with assignment_disabled := true }
        sampleCfg =
      ([disabledEmail sampleSub "cs1" "hw1"], none) :=
  ⟨(precondition_short_circuit sampleSub
      { sampleEnv with class_open := false } sampleCfg).1 rfl,
   (precondition_short_circuit sampleSub
      { sampleEnv with assignment_disabled := true } sampleCfg).2 rfl rfl⟩

/-! ### C9: the three sandbox commands share one invocation contract -/

theorem suffix_pathJoin (a b : String) : b.data <:+ (pathJoin a b).data := by
  rw [pathJoin]
  split
  · rw [String.data_append]
    exact List.suffix_append _ _
  · rw [String.data_append]
    exact List.suffix_append _ _

/-- C9: each of the three sandbox command builders produces its
sandbox-specific boundary followed by a script named `run_action.sh`, the
execution path for the assignment, and then exactly the same four trailing
positional arguments — the student's username, email address, last name and
first name, in that order. -/
theorem sandbox_commands_converge (st : Student) (cfg : Config)
    (temp_path assignment_name container_image tester_home : String)
    (append_args : Option String) :
    sandboxContract (make_docker_command st temp_path assignment_name
      container_image) assignment_name st ∧
    sandboxContract (make_host_command st cfg
      (pathJoin temp_path "run_action.sh")
      (pathJoin temp_path assignment_name)) assignment_name st ∧
    sandboxContract (make_firejail_command st cfg tester_home temp_path
      assignment_name append_args) assignment_name st := by
  refine ⟨?_, ?_, ?_⟩
  · refine ⟨["docker", "run", "-v", temp_path ++ ":/git-keeper-tester",
      container_image, "bash"], "/git-keeper-tester/run_action.sh",
      pathJoin "/git-keeper-tester/" assignment_name, ?_, ?_, ?_⟩
    · simp [make_docker_command, studentArgs]
    · exact ⟨"/git-keeper-tester/".data, rfl⟩
    · exact suffix_pathJoin _ _
  · refine ⟨["sudo", "--user", cfg.tester_user, "--set-home", "bash"],
      pathJoin temp_path "run_action.sh",
      pathJoin temp_path assignment_name, ?_, ?_, ?_⟩
    · simp [make_host_command, studentArgs]
    · exact suffix_pathJoin _ _
    · exact suffix_pathJoin _ _
  · refine ⟨(["sudo", "--user", cfg.tester_user, "--set-home",
      "firejail", "--noprofile", "--quiet",
      "--private=" ++ temp_path]
      ++ (match append_args with
          | none => []
          | some s => pySplit s)) ++ ["bash"],
      pathJoin tester_home "run_action.sh",
      pathJoin tester_home assignment_name, ?_, ?_, ?_⟩
    · simp [make_firejail_command, studentArgs]
    · exact suffix_pathJoin _ _
    · exact suffix_pathJoin _ _

/-! ### C10: the result email precedes any report-archival failure -/

/-- C10: when the test subprocess completes but `_add_report` fails (for
example a report-commit failure), the result email has already been
enqueued before the failure boundary is reached: the trace contains the
result email, then the partial report write, then both Failure Reporter
emails, and `run_tests` still returns normally — the result email is never
withheld on report-commit failure. -/
theorem result_email_survives_report_failure (s : Submission) (env : RunEnv)
    (cfg : Config) (body msg : String) (h : env.prepOk)
    (hd : env.dispatchOk) (hrun : env.run_result = .ok body)
    (hne : s.student.username ≠ env.parsed_faculty)
    (hrep : env.report_err = some msg) :
    (run_tests s env cfg).2 = none ∧
    ∃ pre, (run_tests s env cfg).1 =
      pre ++ [resultEmail s env body, Event.reportFileWritten]
        ++ reportFailureEmails env.parsed_assignment s.student
             s.faculty_email msg
        ++ [Event.tempDirRemoved] := by
  rw [run_tests_of_prepOk s env cfg h]
  rcases hd with ht | ht | ⟨ht, hpull⟩
  · rw [execPhase_host s env cfg ht,
      runAndReport_ok_report_err s env _ body msg hrun hne hrep]
    refine ⟨rfl, ⟨[Event.tempDirCreated, Event.chmodTemp, Event.clone,
      Event.checkout, Event.copyTests, Event.scriptWritten, Event.chownTemp,
      Event.subprocess (make_host_command s.student cfg
        (pathJoin env.temp_path "run_action.sh")
        (pathJoin env.temp_path env.parsed_assignment))], by simp⟩⟩
  · rw [execPhase_firejail s env cfg ht,
      runAndReport_ok_report_err s env _ body msg hrun hne hrep]
    refine ⟨rfl, ⟨[Event.tempDirCreated, Event.chmodTemp, Event.clone,
      Event.checkout, Event.copyTests, Event.scriptWritten, Event.chownTemp,
      Event.subprocess (make_firejail_command s.student cfg env.tester_home
        env.temp_path env.parsed_assignment env.append_args)], by simp⟩⟩
  · rw [execPhase_docker s env cfg ht hpull,
      runAndReport_ok_report_err s env _ body msg hrun hne hrep]
    refine ⟨rfl, ⟨[Event.tempDirCreated, Event.chmodTemp, Event.clone,
      Event.checkout, Event.copyTests, Event.scriptWritten, Event.chownTemp,
      Event.subprocess ["docker", "pull", env.image],
      Event.subprocess (make_docker_command s.student env.temp_path
        env.parsed_assignment env.image)], by simp⟩⟩

/-- Witness for `result_email_survives_report_failure` at a host run whose
report commit fails. -/
theorem result_email_survives_report_failure_witness :
    (run_tests sampleSub
        { sampleEnv with report_err := some "commit failed" } sampleCfg).2
      = none ∧
    ∃ pre, (run_tests sampleSub
        { sampleEnv with report_err := some "commit failed" } sampleCfg).1 =
      pre ++ [resultEmail sampleSub
          { sampleEnv with report_err := some "commit failed" }
          "All tests passed", Event.reportFileWritten]
        ++ reportFailureEmails "hw1" sampleStudent "prof@school.edu"
             "commit failed"
        ++ [Event.tempDirRemoved] :=
  result_email_survives_report_failure sampleSub
    { sampleEnv with report_err := some "commit failed" } sampleCfg
    "All tests passed" "commit failed" (by decide) (Or.inl rfl) rfl
    (by decide) rfl
